import Mathlib

/-
  Verification development for the demand-forecasting notebook
  (`1-demand_forecasting.ipynb`): a pandas-style data-frame model over ℚ,
  the notebook's feature engineering (`prepare_features`), chronological
  splitting (`split_data`), synthetic data generation
  (`generate_demand_data`), and the SageMaker training/deployment glue
  (`train_model`, `deploy_model`, the execution-role lookup), together
  with theorems about the lag/rolling features, null handling, the split,
  and the error handling.

  Float values are modelled as rationals; external numeric library
  functions (`np.sin`, the normal noise draws, the float square root,
  pandas datetime accessors) are taken as oracle parameters.
-/

namespace DemandForecast

/-- A data-frame column: a list of optional (possibly null / NaN) values. -/
abbrev Column := List (Option ℚ)

/-- A pandas-style data frame: named columns, in order. -/
structure Frame where
  cols : List (String × Column)
  deriving DecidableEq

/-- Number of rows: the length of the first column (all columns of a real
frame share one length). -/
def Frame.nrows (f : Frame) : Nat :=
  match f.cols with
  | [] => 0
  | c :: _ => c.2.length

/-- Column lookup `df[name]`; the empty column when the name is absent. -/
def Frame.getCol (f : Frame) (n : String) : Column :=
  match f.cols.find? (fun p => p.1 == n) with
  | some p => p.2
  | none => []

/-- Column assignment `df[name] = c`: replaces the column in place when the
name already exists, otherwise appends it on the right (pandas semantics). -/
def Frame.setCol (f : Frame) (m : String) (c : Column) : Frame :=
  if f.cols.any (fun p => p.1 == m) then
    ⟨f.cols.map (fun p => if p.1 == m then (m, c) else p)⟩
  else
    ⟨f.cols ++ [(m, c)]⟩

/-- Row `i` holds no null entry. -/
def Frame.rowFull (f : Frame) (i : Nat) : Bool :=
  f.cols.all (fun p => (p.2.getD i none).isSome)

/-- Model of `df.dropna()`: keep exactly the rows that hold no null entry. -/
def Frame.dropna (f : Frame) : Frame :=
  ⟨f.cols.map (fun p =>
    (p.1, ((List.range f.nrows).filter (fun i => f.rowFull i)).map
      (fun i => p.2.getD i none)))⟩

/-- Row prefix, `df.iloc[:k]`. -/
def Frame.takeRows (f : Frame) (k : Nat) : Frame :=
  ⟨f.cols.map (fun p => (p.1, p.2.take k))⟩

/-- Row suffix, `df.iloc[k:]`. -/
def Frame.dropRows (f : Frame) (k : Nat) : Frame :=
  ⟨f.cols.map (fun p => (p.1, p.2.drop k))⟩

/-- Vertical concatenation of two frames with the same column names:
columns are concatenated pairwise. -/
def Frame.appendRows (f g : Frame) : Frame :=
  ⟨List.zipWith (fun p q => (p.1, p.2 ++ q.2)) f.cols g.cols⟩

/- ### Feature engineering (`prepare_features`) -/

/-- Model of `Series.shift(lag)`: entry `i` is entry `i - lag` of the source column,
null for `i < lag`. -/
def shift (lag : Nat) (c : Column) : Column :=
  (List.range c.length).map (fun i => if lag ≤ i then c.getD (i - lag) none else none)

/-- The `w` optional entries of the trailing window that ends at row `i`. -/
def window (c : Column) (w i : Nat) : List (Option ℚ) :=
  (List.range w).map (fun j => c.getD (i + 1 - w + j) none)

/-- Model of `Series.rolling(window=w).mean()`: null until `w` rows are available and
when the window holds a null, otherwise the mean of the window. -/
def rollingMean (w : Nat) (c : Column) : Column :=
  (List.range c.length).map (fun i =>
    if w ≤ i + 1 then
      if (window c w i).all (fun v => v.isSome) then
        some (((window c w i).map (fun v => v.getD 0)).sum / (w : ℚ))
      else none
    else none)

/-- Model of `Series.rolling(window=w).std()`: sample standard deviation (`ddof = 1`)
of the trailing window, with `sqrt` the square-root oracle standing for the
float square root; null until `w` rows are available and when the window
holds a null. -/
def rollingStd (sqrt : ℚ → ℚ) (w : Nat) (c : Column) : Column :=
  (List.range c.length).map (fun i =>
    if w ≤ i + 1 then
      if (window c w i).all (fun v => v.isSome) then
        some (sqrt
          ((((window c w i).map (fun v => v.getD 0)).map
            (fun x => (x - ((window c w i).map (fun v => v.getD 0)).sum / (w : ℚ)) ^ 2)).sum
            / ((w : ℚ) - 1)))
      else none
    else none)

/-- Sequential column assignments. -/
def Frame.setCols (f : Frame) (l : List (String × Column)) : Frame :=
  l.foldl (fun g p => g.setCol p.1 p.2) f

/-- The frame `prepare_features` builds before `dropna`: the source's two
loops, each assignment reading the demand column of the current frame. -/
def prepare_features_aug (sqrt : ℚ → ℚ) (df : Frame) : Frame :=
  [7, 14, 30].foldl
    (fun g w =>
      ((g.setCol ("rolling_mean_" ++ toString w) (rollingMean w (g.getCol "demand"))).setCol
        ("rolling_std_" ++ toString w)
        (rollingStd sqrt w
          ((g.setCol ("rolling_mean_" ++ toString w)
            (rollingMean w (g.getCol "demand"))).getCol "demand"))))
    ([1, 7, 14, 30].foldl
      (fun g lag => g.setCol ("lag_" ++ toString lag) (shift lag (g.getCol "demand"))) df)

/-- The function `prepare_features`: lag features for lags 1, 7, 14, 30; rolling mean and
sample-std features for windows 7, 14, 30; then drop the rows that hold a
null. -/
def prepare_features (sqrt : ℚ → ℚ) (df : Frame) : Frame :=
  (prepare_features_aug sqrt df).dropna

/-- The engineered columns, in assignment order, as computed from the demand
column `d`. -/
def engineered (sqrt : ℚ → ℚ) (d : Column) : List (String × Column) :=
  [("lag_1", shift 1 d), ("lag_7", shift 7 d), ("lag_14", shift 14 d), ("lag_30", shift 30 d),
   ("rolling_mean_7", rollingMean 7 d), ("rolling_std_7", rollingStd sqrt 7 d),
   ("rolling_mean_14", rollingMean 14 d), ("rolling_std_14", rollingStd sqrt 14 d),
   ("rolling_mean_30", rollingMean 30 d), ("rolling_std_30", rollingStd sqrt 30 d)]

/- ### Chronological splitting (`split_data`) -/

/-- The feature selection of `split_data`: every column whose name is not
`date` and not `demand`, in the input's order. -/
def featureFrame (df : Frame) : Frame :=
  ⟨df.cols.filter (fun p => !(p.1 == "date" || p.1 == "demand"))⟩

/-- The function `split_data`: features and target, then two `train_test_split` calls
with `shuffle=False` — first `test_size=0.3`, then `test_size=0.5` on the
held-out part.  sklearn puts `ceil(n * test_size)` rows into the test side,
so the first split keeps `n - ceil(3n/10)` leading rows for training and
the second splits the remainder into `floor` / `ceil` halves. -/
def split_data (df : Frame) :
    Frame × Column × Frame × Column × Frame × Column :=
  let X := featureFrame df
  let y := df.getCol "demand"
  let n := y.length
  let nTest := (3 * n + 9) / 10
  let nTrain := n - nTest
  let ytemp := y.drop nTrain
  let m := ytemp.length
  let nVal := m - (m + 1) / 2
  (X.takeRows nTrain, y.take nTrain,
   (X.dropRows nTrain).takeRows nVal, ytemp.take nVal,
   (X.dropRows nTrain).dropRows nVal, ytemp.drop nVal)

/- ### Synthetic data generation (`generate_demand_data`) -/

/-- The pandas datetime attributes of the date `2021-01-01 + t days`, as an
oracle for the `dt.dayofweek`, `dt.month`, `dt.day`, `dt.year`,
`dt.quarter` accessors. -/
structure DateAttrs where
  dayofweek : Nat
  month : Nat
  day : Nat
  year : Nat
  quarter : Nat
  deriving DecidableEq

/-- The function `generate_demand_data`: base demand 100, optional linear trend `0.1·t`,
optional weekly/monthly/yearly sinusoidal seasonality, additive normal
noise `N(0, noise_level·100)` (modelled as `noise_level·100` times the
standard-normal draw `g t`), clipped below at 0; date-derived feature
columns follow.  `pi` and `sinf` are the oracles for the float `np.pi` and
`np.sin`, `dtAttr` for the pandas datetime accessors. -/
def generate_demand_data (pi : ℚ) (sinf : ℚ → ℚ) (g : Nat → ℚ) (dtAttr : Nat → DateAttrs)
    (n_periods : Nat) (seasonality : Bool) (trend : Bool) (noise_level : ℚ) : Frame :=
  let trend_component : Nat → ℚ := fun t => if trend then (t : ℚ) * (1 / 10) else 0
  let seasonality_component : Nat → ℚ := fun t =>
    if seasonality then
      10 * sinf (2 * pi * (t : ℚ) / 7) + 20 * sinf (2 * pi * (t : ℚ) / 30)
        + 50 * sinf (2 * pi * (t : ℚ) / 365)
    else 0
  let noise : Nat → ℚ := fun t => noise_level * 100 * g t
  let demand : Nat → ℚ := fun t =>
    max (100 + trend_component t + seasonality_component t + noise t) 0
  ⟨[("date", (List.range n_periods).map (fun t => some ((t : ℚ)))),
    ("demand", (List.range n_periods).map (fun t => some (demand t))),
    ("dayofweek", (List.range n_periods).map (fun t => some (((dtAttr t).dayofweek : ℚ)))),
    ("month", (List.range n_periods).map (fun t => some (((dtAttr t).month : ℚ)))),
    ("day", (List.range n_periods).map (fun t => some (((dtAttr t).day : ℚ)))),
    ("year", (List.range n_periods).map (fun t => some (((dtAttr t).year : ℚ)))),
    ("quarter", (List.range n_periods).map (fun t => some (((dtAttr t).quarter : ℚ))))]⟩

/- ### SageMaker session, training and deployment glue -/

/-- A raised AWS SDK / botocore error. -/
inductive SdkError where
  | clientError (msg : String)
  deriving DecidableEq

/-- The session-initialization cell: `role = sagemaker.get_execution_role()`
inside `try`, with a bare `except:` that falls back to prompting the user
and stripping the entered text. -/
def initRole (getExecutionRole : Except SdkError String) (userInput : String) :
    Except SdkError String :=
  match getExecutionRole with
  | Except.ok r => Except.ok r
  | Except.error _ => Except.ok userInput.trim

/-- The XGBoost hyperparameters passed to the estimator. -/
structure Hyperparameters where
  max_depth : Nat
  eta : ℚ
  gamma : Nat
  min_child_weight : Nat
  subsample : ℚ
  objective : String
  num_round : Nat
  verbosity : Nat
  deriving DecidableEq

/-- The configuration of the SageMaker XGBoost estimator built by
`train_model`. -/
structure XGBoostEstimator where
  entry_point : String
  source_dir : String
  framework_version : String
  hyperparameters : Hyperparameters
  role : String
  instance_count : Nat
  instance_type : String
  output_path : String
  keep_alive_period_in_seconds : Nat
  deriving DecidableEq

/-- The training job `train_model` submits: the estimator configuration and
the input channels passed to `fit`. -/
structure TrainingJob where
  estimator : XGBoostEstimator
  channels : List (String × String)
  deriving DecidableEq

/-- The function `train_model`: builds the XGBoost estimator with the notebook's fixed
hyperparameters and calls `fit` on the train and validation channels. -/
def train_model (train_s3_path val_s3_path role bucket instance_type : String) :
    TrainingJob :=
  { estimator :=
      { entry_point := "training_script.py"
        source_dir := "utils"
        framework_version := "1.5-1"
        hyperparameters :=
          { max_depth := 6
            eta := 2 / 10
            gamma := 4
            min_child_weight := 6
            subsample := 8 / 10
            objective := "reg:squarederror"
            num_round := 100
            verbosity := 1 }
        role := role
        instance_count := 1
        instance_type := instance_type
        output_path := "s3://" ++ bucket ++ "/demand-forecast/output"
        keep_alive_period_in_seconds := 3600 }
    channels := [("train", train_s3_path), ("validation", val_s3_path)] }

/-- The endpoint deployment performed by `deploy_model`. -/
structure EndpointDeployment where
  endpoint_name : String
  initial_instance_count : Nat
  instance_type : String
  serializer : String
  deserializer : String
  deriving DecidableEq

/-- What `deploy_model` did: which endpoint configuration the best-effort
delete call targeted, and the deployment that was performed. -/
structure DeployOutcome where
  deleteTargetConfig : String
  deployment : EndpointDeployment
  deriving DecidableEq

/-- The function `deploy_model`: a call of the endpoint-config delete API on `ml-models-as-tools`
inside `try` with a bare `except: pass`, then `xgb_estimator.deploy(...)`
regardless of the delete call's outcome. -/
def deploy_model (deleteCall : Except SdkError Unit) (instance_type : String) :
    Except SdkError DeployOutcome :=
  match deleteCall with
  | Except.ok _ =>
      Except.ok
        ⟨"ml-models-as-tools",
         ⟨"ml-models-as-tools", 1, instance_type, "JSONSerializer", "JSONDeserializer"⟩⟩
  | Except.error _ =>
      Except.ok
        ⟨"ml-models-as-tools",
         ⟨"ml-models-as-tools", 1, instance_type, "JSONSerializer", "JSONDeserializer"⟩⟩

/- ### Concrete frames used to instantiate the theorems -/

/-- A three-row frame with a demand column. -/
def sampleFrame : Frame :=
  ⟨[("demand", [some 1, some 2, some 3])]⟩

/-- A 31-row all-non-null frame with a demand column. -/
def sampleFrame31 : Frame :=
  ⟨[("demand", List.replicate 31 (some 1))]⟩

/- ### LEMMAS_START -/

/- ### Basic lemmas about the frame model -/

theorem getD_map_range {β : Type} (f : Nat → β) (m i : Nat) (d : β) :
    ((List.range m).map f).getD i d = if i < m then f i else d := by
  by_cases h : i < m
  · simp [List.getD_eq_getD_get?, List.get?_map, List.get?_range, h]
  · have hnone : (List.range m)[i]? = none := by
      rw [List.getElem?_eq_none]
      simpa using Nat.le_of_not_lt h
    simp [List.getD_eq_getD_get?, hnone, h]

theorem find?_map_replace_self (l : List (String × Column)) (m : String) (c : Column)
    (h : l.any (fun p => p.1 == m) = true) :
    (l.map (fun p => if p.1 == m then (m, c) else p)).find? (fun p => p.1 == m)
      = some (m, c) := by
  induction l with
  | nil => simp at h
  | cons a l ih =>
    rw [List.map_cons]
    by_cases ha : a.1 = m
    · rw [if_pos (by simp [ha])]
      exact List.find?_cons_of_pos _ (by simp)
    · rw [if_neg (by simp [ha])]
      rw [List.find?_cons_of_neg _ (by simp [ha])]
      have h2 := h
      simp only [List.any_cons, Bool.or_eq_true] at h2
      rcases h2 with hx | hx
      · exact absurd (by simpa using hx) ha
      · exact ih hx

theorem find?_map_replace_other (l : List (String × Column)) (m n : String) (c : Column)
    (h : n ≠ m) :
    (l.map (fun p => if p.1 == m then (m, c) else p)).find? (fun p => p.1 == n)
      = l.find? (fun p => p.1 == n) := by
  induction l with
  | nil => simp
  | cons a l ih =>
    rw [List.map_cons]
    by_cases ha : a.1 = m
    · rw [if_pos (by simp [ha])]
      rw [List.find?_cons_of_neg _ (by simp [Ne.symm h])]
      rw [List.find?_cons_of_neg _ (by simp [ha, Ne.symm h])]
      exact ih
    · rw [if_neg (by simp [ha])]
      by_cases hb : a.1 = n
      · rw [List.find?_cons_of_pos _ (by simp [hb])]
        rw [List.find?_cons_of_pos _ (by simp [hb])]
      · rw [List.find?_cons_of_neg _ (by simp [hb])]
        rw [List.find?_cons_of_neg _ (by simp [hb])]
        exact ih

theorem getCol_setCol_self (f : Frame) (m : String) (c : Column) :
    (f.setCol m c).getCol m = c := by
  unfold Frame.setCol
  by_cases h : f.cols.any (fun p => p.1 == m) = true
  · rw [if_pos h]
    simp only [Frame.getCol, find?_map_replace_self f.cols m c h]
  · rw [if_neg h]
    have hall : ∀ p ∈ f.cols, ¬(p.1 == m) = true := by
      intro p hp hpm
      exact h (List.any_eq_true.mpr ⟨p, hp, hpm⟩)
    have hfind : f.cols.find? (fun p => p.1 == m) = none := List.find?_eq_none.mpr hall
    simp only [Frame.getCol, List.find?_append, hfind, Option.none_or]
    rw [List.find?_cons_of_pos _ (by simp)]

theorem getCol_setCol_other (f : Frame) (m n : String) (c : Column) (h : n ≠ m) :
    (f.setCol m c).getCol n = f.getCol n := by
  unfold Frame.setCol
  by_cases hany : f.cols.any (fun p => p.1 == m) = true
  · rw [if_pos hany]
    simp only [Frame.getCol, find?_map_replace_other f.cols m n c h]
  · rw [if_neg hany]
    simp only [Frame.getCol, List.find?_append]
    rw [List.find?_cons_of_neg _ (by simp [Ne.symm h])]
    cases hf : f.cols.find? (fun p => p.1 == n) with
    | some p => simp
    | none => simp [List.find?]

theorem mem_setCol {p : String × Column} (f : Frame) (m : String) (c : Column)
    (h : p ∈ (f.setCol m c).cols) : p = (m, c) ∨ p ∈ f.cols := by
  unfold Frame.setCol at h
  by_cases hany : f.cols.any (fun q => q.1 == m) = true
  · rw [if_pos hany] at h
    rcases List.mem_map.mp h with ⟨q, hq, hqe⟩
    by_cases hqm : q.1 = m
    · rw [if_pos (by simp [hqm])] at hqe
      exact Or.inl hqe.symm
    · rw [if_neg (by simp [hqm])] at hqe
      exact Or.inr (hqe ▸ hq)
  · rw [if_neg hany] at h
    rcases List.mem_append.mp h with hl | hr
    · exact Or.inr hl
    · exact Or.inl (List.mem_singleton.mp hr)

theorem setCol_cols_ne_nil (f : Frame) (m : String) (c : Column) :
    (f.setCol m c).cols ≠ [] := by
  unfold Frame.setCol
  by_cases hany : f.cols.any (fun q => q.1 == m) = true
  · rw [if_pos hany]
    cases hc : f.cols with
    | nil => rw [hc] at hany; simp at hany
    | cons a l => simp
  · rw [if_neg hany]
    simp

theorem hasCol_setCol_self (f : Frame) (m : String) (c : Column) :
    (f.setCol m c).cols.any (fun p => p.1 == m) = true := by
  unfold Frame.setCol
  by_cases hany : f.cols.any (fun q => q.1 == m) = true
  · rw [if_pos hany]
    rcases List.any_eq_true.mp hany with ⟨q, hq, hqm⟩
    refine List.any_eq_true.mpr ⟨(m, c), List.mem_map.mpr ⟨q, hq, by
      rw [if_pos hqm]⟩, by simp⟩
  · rw [if_neg hany]
    simp [List.any_append]

theorem hasCol_setCol_mono (f : Frame) (m n : String) (c : Column)
    (h : f.cols.any (fun p => p.1 == n) = true) :
    (f.setCol m c).cols.any (fun p => p.1 == n) = true := by
  unfold Frame.setCol
  by_cases hany : f.cols.any (fun q => q.1 == m) = true
  · rw [if_pos hany]
    rcases List.any_eq_true.mp h with ⟨q, hq, hqn⟩
    by_cases hqm : q.1 = m
    · refine List.any_eq_true.mpr ⟨(m, c), List.mem_map.mpr ⟨q, hq, by
        rw [if_pos (by simp [hqm])]⟩, ?_⟩
      have hn : q.1 = n := by simpa using hqn
      simp [← hqm, hn]
    · refine List.any_eq_true.mpr ⟨q, List.mem_map.mpr ⟨q, hq, by
        rw [if_neg (by simp [hqm])]⟩, hqn⟩
  · rw [if_neg hany]
    rw [List.any_append, h]
    simp

theorem rowFull_getCol (f : Frame) (nm : String) (i : Nat)
    (hfull : f.rowFull i = true)
    (hhas : f.cols.any (fun p => p.1 == nm) = true) :
    ((f.getCol nm).getD i none).isSome = true := by
  rcases List.any_eq_true.mp hhas with ⟨q, hq, hqn⟩
  have hfind : (f.cols.find? (fun p => p.1 == nm)).isSome = true := by
    exact List.find?_isSome.mpr ⟨q, hq, hqn⟩
  cases hf : f.cols.find? (fun p => p.1 == nm) with
  | none => rw [hf] at hfind; simp at hfind
  | some p =>
    have hp : p ∈ f.cols := List.mem_of_find?_eq_some hf
    have := List.all_eq_true.mp hfull p hp
    simpa [Frame.getCol, hf] using this

theorem rowFull_of_forall (f : Frame) (i : Nat)
    (h : ∀ p ∈ f.cols, ((p.2.getD i none).isSome : Bool) = true) :
    f.rowFull i = true :=
  List.all_eq_true.mpr h

theorem nrows_eq_of_lengths (f : Frame) (n : Nat) (hne : f.cols ≠ [])
    (hlen : ∀ p ∈ f.cols, p.2.length = n) : f.nrows = n := by
  unfold Frame.nrows
  cases hc : f.cols with
  | nil => exact absurd hc hne
  | cons a l => exact hlen a (by rw [hc]; exact List.mem_cons_self a l)

theorem prepare_features_aug_eq (sqrt : ℚ → ℚ) (df : Frame) :
    prepare_features_aug sqrt df = df.setCols (engineered sqrt (df.getCol "demand")) := by
  simp only [prepare_features_aug, Frame.setCols, engineered,
    List.foldl_cons, List.foldl_nil,
    (by decide : ("lag_" ++ toString 1) = "lag_1"),
    (by decide : ("lag_" ++ toString 7) = "lag_7"),
    (by decide : ("lag_" ++ toString 14) = "lag_14"),
    (by decide : ("lag_" ++ toString 30) = "lag_30"),
    (by decide : ("rolling_mean_" ++ toString 7) = "rolling_mean_7"),
    (by decide : ("rolling_std_" ++ toString 7) = "rolling_std_7"),
    (by decide : ("rolling_mean_" ++ toString 14) = "rolling_mean_14"),
    (by decide : ("rolling_std_" ++ toString 14) = "rolling_std_14"),
    (by decide : ("rolling_mean_" ++ toString 30) = "rolling_mean_30"),
    (by decide : ("rolling_std_" ++ toString 30) = "rolling_std_30")]
  simp [getCol_setCol_other]

theorem shift_getD (lag : Nat) (c : Column) (i : Nat) (hi : i < c.length) :
    (shift lag c).getD i none
      = if lag ≤ i then c.getD (i - lag) none else none := by
  simp [shift, getD_map_range, hi]

/-- C1: for every input frame with a demand column and every lag N in
{1, 7, 14, 30}, the frame `prepare_features` builds (before the nulls are
dropped) has a column `lag_N` whose entry at every row `i < nrows` is the
demand entry observed at row `i - N` when `N ≤ i`, and is null (undefined)
when `i < N`. -/
theorem C1_lag_features (sqrt : ℚ → ℚ) (df : Frame) (N i : Nat)
    (hN : N ∈ [1, 7, 14, 30]) (hi : i < (df.getCol "demand").length) :
    ((prepare_features_aug sqrt df).getCol ("lag_" ++ toString N)).getD i none
      = if N ≤ i then (df.getCol "demand").getD (i - N) none else none := by
  have hs : ∀ lag : Nat, (shift lag (df.getCol "demand"))[i]?.getD none
      = if lag ≤ i then (df.getCol "demand")[i - lag]?.getD none else none := by
    intro lag
    simpa [List.getD_eq_getD_get?] using shift_getD lag (df.getCol "demand") i hi
  rw [prepare_features_aug_eq]
  fin_cases hN <;>
    simp [Frame.setCols, engineered, List.foldl_cons, List.foldl_nil,
      getCol_setCol_other, getCol_setCol_self, hs, hi,
      (by decide : ("lag_" ++ toString 1) = "lag_1"),
      (by decide : ("lag_" ++ toString 7) = "lag_7"),
      (by decide : ("lag_" ++ toString 14) = "lag_14"),
      (by decide : ("lag_" ++ toString 30) = "lag_30")]

theorem C1_lag_features_witness :
    ((prepare_features_aug id sampleFrame).getCol ("lag_" ++ toString 1)).getD 2 none
      = if 1 ≤ 2 then (sampleFrame.getCol "demand").getD (2 - 1) none else none :=
  C1_lag_features id sampleFrame 1 2 (by decide) (by decide)

theorem window_eq (c : Column) (d : Nat → ℚ) (w i : Nat) (hi : i < c.length)
    (hw : w ≤ i + 1) (hd : ∀ j, j < c.length → c.getD j none = some (d j)) :
    window c w i = (List.range w).map (fun j => some (d (i + 1 - w + j))) := by
  unfold window
  refine List.map_congr_left ?_
  intro j hj
  have hj' : j < w := List.mem_range.mp hj
  exact hd _ (by omega)

theorem rollingMean_getD (c : Column) (d : Nat → ℚ) (w i : Nat) (hi : i < c.length)
    (hd : ∀ j, j < c.length → c.getD j none = some (d j)) :
    (rollingMean w c).getD i none
      = if w ≤ i + 1 then
          some (((List.range w).map (fun j => d (i + 1 - w + j))).sum / (w : ℚ))
        else none := by
  rw [rollingMean, getD_map_range, if_pos hi]
  by_cases hw : w ≤ i + 1
  · rw [if_pos hw, if_pos hw, window_eq c d w i hi hw hd,
      if_pos (by simp : (((List.range w).map
        (fun j => some (d (i + 1 - w + j)))).all (fun v => v.isSome)) = true)]
    rw [List.map_map]
    rfl
  · rw [if_neg hw, if_neg hw]

theorem rollingStd_getD (sqrt : ℚ → ℚ) (c : Column) (d : Nat → ℚ) (w i : Nat)
    (hi : i < c.length)
    (hd : ∀ j, j < c.length → c.getD j none = some (d j)) :
    (rollingStd sqrt w c).getD i none
      = if w ≤ i + 1 then
          some (sqrt ((((List.range w).map (fun j =>
              (d (i + 1 - w + j)
                - ((List.range w).map (fun j => d (i + 1 - w + j))).sum / (w : ℚ)) ^ 2)).sum)
            / ((w : ℚ) - 1)))
        else none := by
  rw [rollingStd, getD_map_range, if_pos hi]
  by_cases hw : w ≤ i + 1
  · rw [if_pos hw, if_pos hw, window_eq c d w i hi hw hd,
      if_pos (by simp : (((List.range w).map
        (fun j => some (d (i + 1 - w + j)))).all (fun v => v.isSome)) = true)]
    rw [List.map_map, List.map_map, List.map_map]
    rfl
  · rw [if_neg hw, if_neg hw]

theorem getCol_aug_rm7 (sqrt : ℚ → ℚ) (df : Frame) :
    (prepare_features_aug sqrt df).getCol "rolling_mean_7"
      = rollingMean 7 (df.getCol "demand") := by
  rw [prepare_features_aug_eq]
  simp [Frame.setCols, engineered, List.foldl_cons, List.foldl_nil,
    getCol_setCol_other, getCol_setCol_self]

theorem getCol_aug_rs7 (sqrt : ℚ → ℚ) (df : Frame) :
    (prepare_features_aug sqrt df).getCol "rolling_std_7"
      = rollingStd sqrt 7 (df.getCol "demand") := by
  rw [prepare_features_aug_eq]
  simp [Frame.setCols, engineered, List.foldl_cons, List.foldl_nil,
    getCol_setCol_other, getCol_setCol_self]

theorem getCol_aug_rm14 (sqrt : ℚ → ℚ) (df : Frame) :
    (prepare_features_aug sqrt df).getCol "rolling_mean_14"
      = rollingMean 14 (df.getCol "demand") := by
  rw [prepare_features_aug_eq]
  simp [Frame.setCols, engineered, List.foldl_cons, List.foldl_nil,
    getCol_setCol_other, getCol_setCol_self]

theorem getCol_aug_rs14 (sqrt : ℚ → ℚ) (df : Frame) :
    (prepare_features_aug sqrt df).getCol "rolling_std_14"
      = rollingStd sqrt 14 (df.getCol "demand") := by
  rw [prepare_features_aug_eq]
  simp [Frame.setCols, engineered, List.foldl_cons, List.foldl_nil,
    getCol_setCol_other, getCol_setCol_self]

theorem getCol_aug_rm30 (sqrt : ℚ → ℚ) (df : Frame) :
    (prepare_features_aug sqrt df).getCol "rolling_mean_30"
      = rollingMean 30 (df.getCol "demand") := by
  rw [prepare_features_aug_eq]
  simp [Frame.setCols, engineered, List.foldl_cons, List.foldl_nil,
    getCol_setCol_other, getCol_setCol_self]

theorem getCol_aug_rs30 (sqrt : ℚ → ℚ) (df : Frame) :
    (prepare_features_aug sqrt df).getCol "rolling_std_30"
      = rollingStd sqrt 30 (df.getCol "demand") := by
  rw [prepare_features_aug_eq]
  simp [Frame.setCols, engineered, List.foldl_cons, List.foldl_nil,
    getCol_setCol_other, getCol_setCol_self]

/-- C2: for every input frame with a demand column (given pointwise by `d`)
and every window size w in {7, 14, 30}, the frame `prepare_features` builds
(before the nulls are dropped) has columns `rolling_mean_w` and
`rolling_std_w` whose entries at every row `i ≥ w - 1` are the mean,
respectively the sample standard deviation (square root of the sum of
squared deviations over `w - 1`), of demand over the trailing window of
rows `i - w + 1 .. i`; for `i < w - 1` the entries are null (undefined). -/
theorem C2_rolling_features (sqrt : ℚ → ℚ) (df : Frame) (d : Nat → ℚ) (w i : Nat)
    (hw : w ∈ [7, 14, 30]) (hi : i < (df.getCol "demand").length)
    (hd : ∀ j, j < (df.getCol "demand").length →
      (df.getCol "demand").getD j none = some (d j)) :
    (((prepare_features_aug sqrt df).getCol ("rolling_mean_" ++ toString w)).getD i none
      = if w ≤ i + 1 then
          some (((List.range w).map (fun j => d (i + 1 - w + j))).sum / (w : ℚ))
        else none)
    ∧ (((prepare_features_aug sqrt df).getCol ("rolling_std_" ++ toString w)).getD i none
      = if w ≤ i + 1 then
          some (sqrt ((((List.range w).map (fun j =>
              (d (i + 1 - w + j)
                - ((List.range w).map (fun j => d (i + 1 - w + j))).sum / (w : ℚ)) ^ 2)).sum)
            / ((w : ℚ) - 1)))
        else none) := by
  fin_cases hw
  · rw [(by decide : ("rolling_mean_" ++ toString 7) = "rolling_mean_7"),
      (by decide : ("rolling_std_" ++ toString 7) = "rolling_std_7"),
      getCol_aug_rm7, getCol_aug_rs7]
    exact ⟨rollingMean_getD _ d 7 i hi hd, rollingStd_getD sqrt _ d 7 i hi hd⟩
  · rw [(by decide : ("rolling_mean_" ++ toString 14) = "rolling_mean_14"),
      (by decide : ("rolling_std_" ++ toString 14) = "rolling_std_14"),
      getCol_aug_rm14, getCol_aug_rs14]
    exact ⟨rollingMean_getD _ d 14 i hi hd, rollingStd_getD sqrt _ d 14 i hi hd⟩
  · rw [(by decide : ("rolling_mean_" ++ toString 30) = "rolling_mean_30"),
      (by decide : ("rolling_std_" ++ toString 30) = "rolling_std_30"),
      getCol_aug_rm30, getCol_aug_rs30]
    exact ⟨rollingMean_getD _ d 30 i hi hd, rollingStd_getD sqrt _ d 30 i hi hd⟩

theorem C2_rolling_features_witness :
    (((prepare_features_aug id sampleFrame31).getCol ("rolling_mean_" ++ toString 7)).getD 6 none
      = if 7 ≤ 6 + 1 then
          some (((List.range 7).map (fun _ => (1 : ℚ))).sum / (7 : ℚ))
        else none)
    ∧ (((prepare_features_aug id sampleFrame31).getCol ("rolling_std_" ++ toString 7)).getD 6 none
      = if 7 ≤ 6 + 1 then
          some (id ((((List.range 7).map (fun _ =>
              ((1 : ℚ) - ((List.range 7).map (fun _ => (1 : ℚ))).sum / (7 : ℚ)) ^ 2)).sum)
            / ((7 : ℚ) - 1)))
        else none) :=
  C2_rolling_features id sampleFrame31 (fun _ => 1) 7 6 (by decide) (by decide) (by decide)

theorem mem_foldl_setCol {p : String × Column} (l : List (String × Column)) (f : Frame)
    (h : p ∈ (l.foldl (fun g q => g.setCol q.1 q.2) f).cols) :
    p ∈ f.cols ∨ p ∈ l := by
  induction l generalizing f with
  | nil => exact Or.inl h
  | cons a l ih =>
    rw [List.foldl_cons] at h
    rcases ih (f.setCol a.1 a.2) h with hf | hl
    · rcases mem_setCol f a.1 a.2 hf with he | hm
      · right
        rw [he]
        exact List.mem_cons_self a l
      · exact Or.inl hm
    · exact Or.inr (List.mem_cons_of_mem a hl)

theorem ne_nil_foldl_setCol (l : List (String × Column)) (f : Frame)
    (h : f.cols ≠ []) :
    (l.foldl (fun g q => g.setCol q.1 q.2) f).cols ≠ [] := by
  induction l generalizing f with
  | nil => exact h
  | cons a l ih =>
    rw [List.foldl_cons]
    exact ih _ (setCol_cols_ne_nil f a.1 a.2)

theorem hasCol_foldl_mono (l : List (String × Column)) (f : Frame) (nm : String)
    (h : f.cols.any (fun p => p.1 == nm) = true) :
    ((l.foldl (fun g q => g.setCol q.1 q.2) f).cols.any (fun p => p.1 == nm)) = true := by
  induction l generalizing f with
  | nil => exact h
  | cons a l ih =>
    rw [List.foldl_cons]
    exact ih _ (hasCol_setCol_mono f a.1 nm a.2 h)

theorem hasCol_foldl_of_any (l : List (String × Column)) (f : Frame) (nm : String)
    (h : l.any (fun q => q.1 == nm) = true) :
    ((l.foldl (fun g q => g.setCol q.1 q.2) f).cols.any (fun p => p.1 == nm)) = true := by
  induction l generalizing f with
  | nil => simp at h
  | cons a l ih =>
    rw [List.foldl_cons]
    by_cases ha : a.1 = nm
    · apply hasCol_foldl_mono
      rw [← ha]
      exact hasCol_setCol_self f a.1 a.2
    · apply ih
      have h2 := h
      simp only [List.any_cons, Bool.or_eq_true] at h2
      rcases h2 with hx | hx
      · exact absurd (by simpa using hx) ha
      · exact hx

theorem getCol_of_hasCol (f : Frame) (nm : String)
    (h : f.cols.any (fun p => p.1 == nm) = true) :
    ∃ q ∈ f.cols, f.getCol nm = q.2 := by
  have hfind : (f.cols.find? (fun p => p.1 == nm)).isSome = true := by
    rcases List.any_eq_true.mp h with ⟨q, hq, hqn⟩
    exact List.find?_isSome.mpr ⟨q, hq, hqn⟩
  cases hf : f.cols.find? (fun p => p.1 == nm) with
  | none => rw [hf] at hfind; simp at hfind
  | some q =>
    exact ⟨q, List.mem_of_find?_eq_some hf, by simp [Frame.getCol, hf]⟩

theorem filter_range_ge (k n : Nat) :
    (List.range n).filter (fun i => decide (k ≤ i)) = (List.range n).drop k := by
  induction n with
  | zero => simp
  | succ n ih =>
    rw [List.range_succ, List.filter_append, ih]
    by_cases h : k ≤ n
    · rw [List.drop_append_of_le_length (by simpa using h)]
      simp [h]
    · have h1 : (List.range n).drop k = [] :=
        List.drop_eq_nil_of_le (by simpa using Nat.le_of_not_lt (by omega))
      have h2 : (List.range n ++ [n]).drop k = [] :=
        List.drop_eq_nil_of_le (by simp; omega)
      rw [h1, h2]
      simp [h]

theorem getCol_aug_lag30 (sqrt : ℚ → ℚ) (df : Frame) :
    (prepare_features_aug sqrt df).getCol "lag_30" = shift 30 (df.getCol "demand") := by
  rw [prepare_features_aug_eq]
  simp [Frame.setCols, engineered, List.foldl_cons, List.foldl_nil,
    getCol_setCol_other, getCol_setCol_self]

theorem length_shift (lag : Nat) (c : Column) : (shift lag c).length = c.length := by
  simp [shift]

theorem length_rollingMean (w : Nat) (c : Column) : (rollingMean w c).length = c.length := by
  simp [rollingMean]

theorem length_rollingStd (sqrt : ℚ → ℚ) (w : Nat) (c : Column) :
    (rollingStd sqrt w c).length = c.length := by
  simp [rollingStd]

theorem isSome_getD_of_isSome (o : Option ℚ) (h : o.isSome = true) :
    o = some (o.getD 0) := by
  cases o with
  | none => simp at h
  | some a => rfl

theorem rowFull_aug_iff (sqrt : ℚ → ℚ) (df : Frame) (n i : Nat)
    (hdem : df.cols.any (fun p => p.1 == "demand") = true)
    (hlen : ∀ p ∈ df.cols, p.2.length = n)
    (hfull : ∀ p ∈ df.cols, ∀ j, j < n → (p.2.getD j none).isSome = true)
    (hi : i < n) :
    (prepare_features_aug sqrt df).rowFull i = true ↔ 30 ≤ i := by
  obtain ⟨q, hq, hgq⟩ := getCol_of_hasCol df "demand" hdem
  have hdl : (df.getCol "demand").length = n := by rw [hgq]; exact hlen q hq
  have hi' : i < (df.getCol "demand").length := by rw [hdl]; exact hi
  have hdfull : ∀ j, j < n → ((df.getCol "demand").getD j none).isSome = true := by
    intro j hj
    rw [hgq]
    exact hfull q hq j hj
  constructor
  · intro hrf
    have hhas : (prepare_features_aug sqrt df).cols.any (fun p => p.1 == "lag_30") = true := by
      rw [prepare_features_aug_eq]
      exact hasCol_foldl_of_any _ _ _ (by simp [engineered])
    have hs := rowFull_getCol _ "lag_30" i hrf hhas
    rw [getCol_aug_lag30, shift_getD 30 _ i hi'] at hs
    by_contra h30
    rw [if_neg h30] at hs
    simp at hs
  · intro h30
    apply rowFull_of_forall
    intro p hp
    rw [prepare_features_aug_eq] at hp
    have hd : ∀ j, j < (df.getCol "demand").length →
        (df.getCol "demand").getD j none
          = some (((df.getCol "demand").getD j none).getD 0) := by
      intro j hj
      exact isSome_getD_of_isSome _ (hdfull j (by omega))
    have hshift : ∀ lag, lag ≤ 30 →
        ((shift lag (df.getCol "demand")).getD i none).isSome = true := by
      intro lag hlag
      rw [shift_getD lag _ i hi', if_pos (by omega)]
      exact hdfull (i - lag) (by omega)
    have hrm : ∀ w, w ≤ 30 →
        ((rollingMean w (df.getCol "demand")).getD i none).isSome = true := by
      intro w hw
      rw [rollingMean_getD _ (fun j => ((df.getCol "demand").getD j none).getD 0) w i hi' hd,
        if_pos (by omega)]
      rfl
    have hrs : ∀ w, w ≤ 30 →
        ((rollingStd sqrt w (df.getCol "demand")).getD i none).isSome = true := by
      intro w hw
      rw [rollingStd_getD sqrt _ (fun j => ((df.getCol "demand").getD j none).getD 0) w i hi' hd,
        if_pos (by omega)]
      rfl
    rcases mem_foldl_setCol _ _ hp with hdf | heng
    · exact hfull p hdf i hi
    · simp only [engineered, List.mem_cons, List.not_mem_nil, or_false] at heng
      rcases heng with h | h | h | h | h | h | h | h | h | h <;> subst h
      · exact hshift 1 (by omega)
      · exact hshift 7 (by omega)
      · exact hshift 14 (by omega)
      · exact hshift 30 (by omega)
      · exact hrm 7 (by omega)
      · exact hrs 7 (by omega)
      · exact hrm 14 (by omega)
      · exact hrs 14 (by omega)
      · exact hrm 30 (by omega)
      · exact hrs 30 (by omega)

theorem nrows_aug (sqrt : ℚ → ℚ) (df : Frame) (n : Nat)
    (hdem : df.cols.any (fun p => p.1 == "demand") = true)
    (hlen : ∀ p ∈ df.cols, p.2.length = n) :
    (prepare_features_aug sqrt df).nrows = n := by
  have hne : df.cols ≠ [] := by
    intro hnil
    rw [hnil] at hdem
    simp at hdem
  obtain ⟨q, hq, hgq⟩ := getCol_of_hasCol df "demand" hdem
  have hdl : (df.getCol "demand").length = n := by rw [hgq]; exact hlen q hq
  apply nrows_eq_of_lengths _ n
  · rw [prepare_features_aug_eq]
    exact ne_nil_foldl_setCol _ _ hne
  · intro p hp
    rw [prepare_features_aug_eq] at hp
    rcases mem_foldl_setCol _ _ hp with hdf | heng
    · exact hlen p hdf
    · simp only [engineered, List.mem_cons, List.not_mem_nil, or_false] at heng
      rcases heng with h | h | h | h | h | h | h | h | h | h <;> subst h <;>
        simp [length_shift, length_rollingMean, length_rollingStd, hdl]

theorem dropna_no_nulls (f : Frame) :
    ∀ p ∈ f.dropna.cols, ∀ v ∈ p.2, v.isSome = true := by
  intro p hp v hv
  unfold Frame.dropna at hp
  rcases List.mem_map.mp hp with ⟨q, hq, hqe⟩
  rw [← hqe] at hv
  rcases List.mem_map.mp hv with ⟨i, hikeep, hie⟩
  have him := List.mem_filter.mp hikeep
  rw [← hie]
  exact List.all_eq_true.mp him.2 q hq

/-- C3: feature engineering's only data-removing behaviour is null handling
after windowing: on an input frame with a demand column, `n ≥ 31` rows and
no nulls, `prepare_features` returns a frame with no null values, consisting
of exactly rows 30 through `n - 1` of the augmented frame (the first 30
rows, where some lag or rolling feature is undefined, are dropped), every
retained value unchanged. -/
theorem C3_dropna_behaviour (sqrt : ℚ → ℚ) (df : Frame) (n : Nat)
    (hn : 31 ≤ n)
    (hdem : df.cols.any (fun p => p.1 == "demand") = true)
    (hlen : ∀ p ∈ df.cols, p.2.length = n)
    (hfull : ∀ p ∈ df.cols, ∀ j, j < n → (p.2.getD j none).isSome = true) :
    prepare_features sqrt df
      = ⟨(prepare_features_aug sqrt df).cols.map (fun p =>
          (p.1, ((List.range n).drop 30).map (fun i => p.2.getD i none)))⟩
    ∧ ∀ p ∈ (prepare_features sqrt df).cols, ∀ v ∈ p.2, v.isSome = true := by
  have hnr : (prepare_features_aug sqrt df).nrows = n := nrows_aug sqrt df n hdem hlen
  have hcongr : ∀ i ∈ List.range n,
      ((prepare_features_aug sqrt df).rowFull i) = decide (30 ≤ i) := by
    intro i hi
    have hi' : i < n := List.mem_range.mp hi
    by_cases h30 : 30 ≤ i
    · simp [(rowFull_aug_iff sqrt df n i hdem hlen hfull hi').mpr h30, h30]
    · have hf : (prepare_features_aug sqrt df).rowFull i = false :=
        Bool.eq_false_iff.mpr (fun hc =>
          h30 ((rowFull_aug_iff sqrt df n i hdem hlen hfull hi').mp hc))
      simp [hf, h30]
  constructor
  · unfold prepare_features Frame.dropna
    rw [hnr, List.filter_congr hcongr, filter_range_ge 30 n]
  · exact dropna_no_nulls (prepare_features_aug sqrt df)

theorem C3_dropna_behaviour_witness :
    prepare_features id sampleFrame31
      = ⟨(prepare_features_aug id sampleFrame31).cols.map (fun p =>
          (p.1, ((List.range 31).drop 30).map (fun i => p.2.getD i none)))⟩
    ∧ ∀ p ∈ (prepare_features id sampleFrame31).cols, ∀ v ∈ p.2, v.isSome = true :=
  C3_dropna_behaviour id sampleFrame31 31 (by decide) (by decide) (by decide) (by decide)

theorem take_append_drop_chain (t v : Nat) (c : Column) :
    (c.take t ++ (c.drop t).take v) ++ (c.drop t).drop v = c := by
  rw [List.append_assoc, List.take_append_drop, List.take_append_drop]

theorem appendRows_take_drop (l : List (String × Column)) (t v : Nat) :
    Frame.appendRows
      (Frame.appendRows ⟨l.map (fun p => (p.1, p.2.take t))⟩
        ⟨l.map (fun p => (p.1, (p.2.drop t).take v))⟩)
      ⟨l.map (fun p => (p.1, (p.2.drop t).drop v))⟩ = ⟨l⟩ := by
  unfold Frame.appendRows
  congr 1
  induction l with
  | nil => rfl
  | cons a l ih =>
    simp only [List.map_cons, List.zipWith_cons_cons, ih, take_append_drop_chain]

theorem split_data_eq (df : Frame) :
    split_data df
      = ((featureFrame df).takeRows (7 * (df.getCol "demand").length / 10),
         (df.getCol "demand").take (7 * (df.getCol "demand").length / 10),
         ((featureFrame df).dropRows (7 * (df.getCol "demand").length / 10)).takeRows
           (((df.getCol "demand").length - 7 * (df.getCol "demand").length / 10) / 2),
         ((df.getCol "demand").drop (7 * (df.getCol "demand").length / 10)).take
           (((df.getCol "demand").length - 7 * (df.getCol "demand").length / 10) / 2),
         ((featureFrame df).dropRows (7 * (df.getCol "demand").length / 10)).dropRows
           (((df.getCol "demand").length - 7 * (df.getCol "demand").length / 10) / 2),
         ((df.getCol "demand").drop (7 * (df.getCol "demand").length / 10)).drop
           (((df.getCol "demand").length - 7 * (df.getCol "demand").length / 10) / 2)) := by
  have hV : (df.getCol "demand").length
        - ((df.getCol "demand").length - (3 * (df.getCol "demand").length + 9) / 10)
        - (((df.getCol "demand").length
            - ((df.getCol "demand").length - (3 * (df.getCol "demand").length + 9) / 10)) + 1) / 2
      = ((df.getCol "demand").length - 7 * (df.getCol "demand").length / 10) / 2 := by
    omega
  have hT : (df.getCol "demand").length - (3 * (df.getCol "demand").length + 9) / 10
      = 7 * (df.getCol "demand").length / 10 := by
    omega
  simp only [split_data, List.length_drop]
  rw [hV, hT]

/-- C9: `split_data` splits chronologically without shuffling: train is the
first `⌊0.7·n⌋` rows, validation the next `⌊(n − ⌊0.7·n⌋)/2⌋` rows, test the
remainder; concatenating train, validation and test in order (features and
target alike) restores exactly the original rows in their original order. -/
theorem C9_chronological_split (df : Frame) :
    (split_data df
      = ((featureFrame df).takeRows (7 * (df.getCol "demand").length / 10),
         (df.getCol "demand").take (7 * (df.getCol "demand").length / 10),
         ((featureFrame df).dropRows (7 * (df.getCol "demand").length / 10)).takeRows
           (((df.getCol "demand").length - 7 * (df.getCol "demand").length / 10) / 2),
         ((df.getCol "demand").drop (7 * (df.getCol "demand").length / 10)).take
           (((df.getCol "demand").length - 7 * (df.getCol "demand").length / 10) / 2),
         ((featureFrame df).dropRows (7 * (df.getCol "demand").length / 10)).dropRows
           (((df.getCol "demand").length - 7 * (df.getCol "demand").length / 10) / 2),
         ((df.getCol "demand").drop (7 * (df.getCol "demand").length / 10)).drop
           (((df.getCol "demand").length - 7 * (df.getCol "demand").length / 10) / 2)))
    ∧ ((split_data df).1.appendRows (split_data df).2.2.1).appendRows
        (split_data df).2.2.2.2.1 = featureFrame df
    ∧ (split_data df).2.1 ++ ((split_data df).2.2.2.1 ++ (split_data df).2.2.2.2.2)
        = df.getCol "demand" := by
  have e := split_data_eq df
  have h1 : (split_data df).1
      = (featureFrame df).takeRows (7 * (df.getCol "demand").length / 10) := by
    rw [e]
  have h2 : (split_data df).2.2.1
      = ((featureFrame df).dropRows (7 * (df.getCol "demand").length / 10)).takeRows
          (((df.getCol "demand").length - 7 * (df.getCol "demand").length / 10) / 2) := by
    rw [e]
  have h3 : (split_data df).2.2.2.2.1
      = ((featureFrame df).dropRows (7 * (df.getCol "demand").length / 10)).dropRows
          (((df.getCol "demand").length - 7 * (df.getCol "demand").length / 10) / 2) := by
    rw [e]
  have h4 : (split_data df).2.1
      = (df.getCol "demand").take (7 * (df.getCol "demand").length / 10) := by
    rw [e]
  have h5 : (split_data df).2.2.2.1
      = ((df.getCol "demand").drop (7 * (df.getCol "demand").length / 10)).take
          (((df.getCol "demand").length - 7 * (df.getCol "demand").length / 10) / 2) := by
    rw [e]
  have h6 : (split_data df).2.2.2.2.2
      = ((df.getCol "demand").drop (7 * (df.getCol "demand").length / 10)).drop
          (((df.getCol "demand").length - 7 * (df.getCol "demand").length / 10) / 2) := by
    rw [e]
  refine ⟨e, ?_, ?_⟩
  · rw [h1, h2, h3]
    have hB : ∀ t v : Nat, ((featureFrame df).dropRows t).takeRows v
        = ⟨(featureFrame df).cols.map (fun p => (p.1, (p.2.drop t).take v))⟩ := by
      intro t v
      unfold Frame.dropRows Frame.takeRows
      congr 1
      rw [List.map_map]
      rfl
    have hC : ∀ t v : Nat, ((featureFrame df).dropRows t).dropRows v
        = ⟨(featureFrame df).cols.map (fun p => (p.1, (p.2.drop t).drop v))⟩ := by
      intro t v
      unfold Frame.dropRows
      congr 1
      rw [List.map_map]
      rfl
    rw [hB, hC]
    exact appendRows_take_drop (featureFrame df).cols _ _
  · rw [h4, h5, h6]
    rw [List.take_append_drop, List.take_append_drop]

theorem map_fst_filter_names (l : List (String × Column)) :
    ((l.filter (fun p => !(p.1 == "date" || p.1 == "demand"))).map Prod.fst)
      = (l.map Prod.fst).filter (fun s => !(s == "date" || s == "demand")) := by
  induction l with
  | nil => rfl
  | cons a l ih =>
    rw [List.filter_cons, List.map_cons, List.filter_cons]
    by_cases hq : (!(a.1 == "date" || a.1 == "demand")) = true
    · rw [if_pos hq, if_pos hq, List.map_cons, ih]
    · rw [if_neg hq, if_neg hq, ih]

theorem map_fst_rowsMap (l : List (String × Column)) (g : Column → Column) :
    ((l.map (fun p => (p.1, g p.2))).map Prod.fst) = l.map Prod.fst := by
  rw [List.map_map]
  rfl

/-- C10: the feature matrices produced by `split_data` carry exactly the
input's columns other than `date` and `demand`, in order; in particular the
target column `demand` (and the `date` column) never appears among the
predictor features. -/
theorem C10_features_exclude_target (df : Frame) :
    ((split_data df).1.cols.map Prod.fst
        = (df.cols.map Prod.fst).filter (fun s => !(s == "date" || s == "demand")))
    ∧ ((split_data df).2.2.1.cols.map Prod.fst
        = (df.cols.map Prod.fst).filter (fun s => !(s == "date" || s == "demand")))
    ∧ ((split_data df).2.2.2.2.1.cols.map Prod.fst
        = (df.cols.map Prod.fst).filter (fun s => !(s == "date" || s == "demand")))
    ∧ "demand" ∉ (split_data df).1.cols.map Prod.fst
    ∧ "date" ∉ (split_data df).1.cols.map Prod.fst := by
  have e := split_data_eq df
  have hXn : ∀ g : Column → Column,
      ((⟨(featureFrame df).cols.map (fun p => (p.1, g p.2))⟩ : Frame).cols.map Prod.fst)
        = (df.cols.map Prod.fst).filter (fun s => !(s == "date" || s == "demand")) := by
    intro g
    show (((featureFrame df).cols.map (fun p => (p.1, g p.2))).map Prod.fst) = _
    rw [map_fst_rowsMap]
    exact map_fst_filter_names df.cols
  have h1 : (split_data df).1.cols.map Prod.fst
      = (df.cols.map Prod.fst).filter (fun s => !(s == "date" || s == "demand")) := by
    rw [e]
    exact hXn (fun c => c.take (7 * (df.getCol "demand").length / 10))
  have h2 : (split_data df).2.2.1.cols.map Prod.fst
      = (df.cols.map Prod.fst).filter (fun s => !(s == "date" || s == "demand")) := by
    rw [e]
    have hB : ((featureFrame df).dropRows (7 * (df.getCol "demand").length / 10)).takeRows
          (((df.getCol "demand").length - 7 * (df.getCol "demand").length / 10) / 2)
        = ⟨(featureFrame df).cols.map (fun p =>
            (p.1, (p.2.drop (7 * (df.getCol "demand").length / 10)).take
              (((df.getCol "demand").length - 7 * (df.getCol "demand").length / 10) / 2)))⟩ := by
      unfold Frame.dropRows Frame.takeRows
      congr 1
      rw [List.map_map]
      rfl
    rw [hB]
    exact hXn (fun c => (c.drop (7 * (df.getCol "demand").length / 10)).take
      (((df.getCol "demand").length - 7 * (df.getCol "demand").length / 10) / 2))
  have h3 : (split_data df).2.2.2.2.1.cols.map Prod.fst
      = (df.cols.map Prod.fst).filter (fun s => !(s == "date" || s == "demand")) := by
    rw [e]
    have hC : ((featureFrame df).dropRows (7 * (df.getCol "demand").length / 10)).dropRows
          (((df.getCol "demand").length - 7 * (df.getCol "demand").length / 10) / 2)
        = ⟨(featureFrame df).cols.map (fun p =>
            (p.1, (p.2.drop (7 * (df.getCol "demand").length / 10)).drop
              (((df.getCol "demand").length - 7 * (df.getCol "demand").length / 10) / 2)))⟩ := by
      unfold Frame.dropRows
      congr 1
      rw [List.map_map]
      rfl
    rw [hC]
    exact hXn (fun c => (c.drop (7 * (df.getCol "demand").length / 10)).drop
      (((df.getCol "demand").length - 7 * (df.getCol "demand").length / 10) / 2))
  refine ⟨h1, h2, h3, ?_, ?_⟩
  · rw [h1]
    intro hmem
    have := (List.mem_filter.mp hmem).2
    simp at this
  · rw [h1]
    intro hmem
    have := (List.mem_filter.mp hmem).2
    simp at this

theorem getCol_generate_demand (pi : ℚ) (sinf : ℚ → ℚ) (g : Nat → ℚ)
    (dtAttr : Nat → DateAttrs) (n_periods : Nat) (seasonality trend : Bool)
    (noise_level : ℚ) :
    (generate_demand_data pi sinf g dtAttr n_periods seasonality trend noise_level).getCol
        "demand"
      = (List.range n_periods).map (fun (t : Nat) =>
          some (max (100 + (if trend then (t : ℚ) * (1 / 10) else 0)
            + (if seasonality then
                10 * sinf (2 * pi * (t : ℚ) / 7) + 20 * sinf (2 * pi * (t : ℚ) / 30)
                  + 50 * sinf (2 * pi * (t : ℚ) / 365)
              else 0)
            + noise_level * 100 * g t) 0)) := by
  simp only [generate_demand_data, Frame.getCol]
  rw [List.find?_cons_of_neg _ (by simp), List.find?_cons_of_pos _ (by simp)]

/-- C6: data generation is trigonometric synthesis: with trend and
seasonality on, `demand[t] = max(0, 100 + 0.1·t + 10·sin(2πt/7) +
20·sin(2πt/30) + 50·sin(2πt/365) + noise[t])`; with `seasonality=False` the
three sinusoidal terms are omitted, with `trend=False` the `0.1·t` term is
omitted.  (`sinf`, `pi` and the noise draw are the float oracles.) -/
theorem C6_trig_synthesis (pi : ℚ) (sinf : ℚ → ℚ) (g : Nat → ℚ)
    (dtAttr : Nat → DateAttrs) (n_periods : Nat) (noise_level : ℚ) (t : Nat)
    (ht : t < n_periods) :
    (((generate_demand_data pi sinf g dtAttr n_periods true true noise_level).getCol
          "demand").getD t none
        = some (max 0 (100 + (t : ℚ) * (1 / 10)
            + (10 * sinf (2 * pi * (t : ℚ) / 7) + 20 * sinf (2 * pi * (t : ℚ) / 30)
              + 50 * sinf (2 * pi * (t : ℚ) / 365))
            + noise_level * 100 * g t)))
    ∧ (((generate_demand_data pi sinf g dtAttr n_periods false true noise_level).getCol
          "demand").getD t none
        = some (max 0 (100 + (t : ℚ) * (1 / 10) + noise_level * 100 * g t)))
    ∧ (((generate_demand_data pi sinf g dtAttr n_periods true false noise_level).getCol
          "demand").getD t none
        = some (max 0 (100
            + (10 * sinf (2 * pi * (t : ℚ) / 7) + 20 * sinf (2 * pi * (t : ℚ) / 30)
              + 50 * sinf (2 * pi * (t : ℚ) / 365))
            + noise_level * 100 * g t)))
    ∧ (((generate_demand_data pi sinf g dtAttr n_periods false false noise_level).getCol
          "demand").getD t none
        = some (max 0 (100 + noise_level * 100 * g t))) := by
  refine ⟨?_, ?_, ?_, ?_⟩ <;>
    · rw [getCol_generate_demand, getD_map_range, if_pos ht]
      norm_num [max_comm]

/-- C8: for every flag setting, noise level and noise draw, every demand
value produced by `generate_demand_data` is non-negative: the combined
signal is clipped below at 0 before the frame is built. -/
theorem C8_demand_nonneg (pi : ℚ) (sinf : ℚ → ℚ) (g : Nat → ℚ)
    (dtAttr : Nat → DateAttrs) (n_periods : Nat) (seasonality trend : Bool)
    (noise_level : ℚ) :
    ∀ v ∈ (generate_demand_data pi sinf g dtAttr n_periods seasonality trend
        noise_level).getCol "demand", ∃ x, v = some x ∧ 0 ≤ x := by
  rw [getCol_generate_demand]
  intro v hv
  rcases List.mem_map.mp hv with ⟨t, ht, hte⟩
  exact ⟨_, hte.symm, le_max_right _ _⟩

theorem C8_demand_nonneg_witness : ∃ x, (some (100 : ℚ)) = some x ∧ 0 ≤ x :=
  C8_demand_nonneg 0 (fun _ => 0) (fun _ => 0) (fun _ => ⟨0, 0, 0, 0, 0⟩) 1 false false 0
    (some 100) (by rw [getCol_generate_demand]; norm_num)

/-- C7: `train_model` always configures the XGBoost estimator with the
squared-error regression objective, 100 boosting rounds, `max_depth` 6 and
`eta` 0.2, and fits exactly the train and validation channels on the given
S3 paths. -/
theorem C7_training_config (train_s3_path val_s3_path role bucket instance_type : String) :
    (train_model train_s3_path val_s3_path role bucket
        instance_type).estimator.hyperparameters.objective = "reg:squarederror"
    ∧ (train_model train_s3_path val_s3_path role bucket
        instance_type).estimator.hyperparameters.num_round = 100
    ∧ (train_model train_s3_path val_s3_path role bucket
        instance_type).estimator.hyperparameters.max_depth = 6
    ∧ (train_model train_s3_path val_s3_path role bucket
        instance_type).estimator.hyperparameters.eta = 0.2
    ∧ (train_model train_s3_path val_s3_path role bucket instance_type).channels
        = [("train", train_s3_path), ("validation", val_s3_path)] :=
  ⟨rfl, rfl, rfl, by norm_num [train_model], rfl⟩

/-- C4: `deploy_model` performs a best-effort delete-if-exists of the
endpoint configuration `ml-models-as-tools`: whatever the delete call's
outcome, the error is suppressed and the deployment proceeds identically —
`deploy_model` never fails. -/
theorem C4_best_effort_delete (deleteCall : Except SdkError Unit) (instance_type : String) :
    deploy_model deleteCall instance_type
      = Except.ok
          ⟨"ml-models-as-tools",
           ⟨"ml-models-as-tools", 1, instance_type, "JSONSerializer", "JSONDeserializer"⟩⟩ := by
  cases deleteCall <;> rfl

/-- C5 (counterexample): the session-initialization cell also recovers from
a failure by falling back: when `get_execution_role()` raises, the role is
taken from the (stripped) user input and the computation succeeds instead
of propagating the error. -/
theorem C5_role_fallback_counterexample :
    initRole (Except.error (SdkError.clientError "no execution role"))
        "  arn:aws:iam::123456789012:role/SageMakerRole  "
      = Except.ok ("  arn:aws:iam::123456789012:role/SageMakerRole  ".trim) := rfl

/-- C5 (amended): the notebook's failure-recovery logic consists of exactly
two best-effort constructs: the execution-role lookup, which on any raised
error falls back to the stripped user input, and the delete-if-exists in
`deploy_model`, whose outcome never changes the deployment. -/
theorem C5_failure_recovery_amended (e : SdkError) (r userInput : String)
    (deleteCall : Except SdkError Unit) (instance_type : String) :
    initRole (Except.error e) userInput = Except.ok userInput.trim
    ∧ initRole (Except.ok r) userInput = Except.ok r
    ∧ deploy_model deleteCall instance_type = deploy_model (Except.ok ()) instance_type := by
  refine ⟨rfl, rfl, ?_⟩
  cases deleteCall <;> rfl

theorem C6_trig_synthesis_witness :
    (((generate_demand_data 0 (fun _ => 0) (fun _ : Nat => (0 : ℚ))
          (fun _ => ⟨0, 0, 0, 0, 0⟩) 1 true true 0).getCol "demand").getD 0 none
        = some (max 0 (100 + ((0 : Nat) : ℚ) * (1 / 10)
            + (10 * (fun _ => (0 : ℚ)) (2 * 0 * ((0 : Nat) : ℚ) / 7)
              + 20 * (fun _ => (0 : ℚ)) (2 * 0 * ((0 : Nat) : ℚ) / 30)
              + 50 * (fun _ => (0 : ℚ)) (2 * 0 * ((0 : Nat) : ℚ) / 365))
            + 0 * 100 * (fun _ : Nat => (0 : ℚ)) 0)))
    ∧ (((generate_demand_data 0 (fun _ => 0) (fun _ : Nat => (0 : ℚ))
          (fun _ => ⟨0, 0, 0, 0, 0⟩) 1 false true 0).getCol "demand").getD 0 none
        = some (max 0 (100 + ((0 : Nat) : ℚ) * (1 / 10)
            + 0 * 100 * (fun _ : Nat => (0 : ℚ)) 0)))
    ∧ (((generate_demand_data 0 (fun _ => 0) (fun _ : Nat => (0 : ℚ))
          (fun _ => ⟨0, 0, 0, 0, 0⟩) 1 true false 0).getCol "demand").getD 0 none
        = some (max 0 (100
            + (10 * (fun _ => (0 : ℚ)) (2 * 0 * ((0 : Nat) : ℚ) / 7)
              + 20 * (fun _ => (0 : ℚ)) (2 * 0 * ((0 : Nat) : ℚ) / 30)
              + 50 * (fun _ => (0 : ℚ)) (2 * 0 * ((0 : Nat) : ℚ) / 365))
            + 0 * 100 * (fun _ : Nat => (0 : ℚ)) 0)))
    ∧ (((generate_demand_data 0 (fun _ => 0) (fun _ : Nat => (0 : ℚ))
          (fun _ => ⟨0, 0, 0, 0, 0⟩) 1 false false 0).getCol "demand").getD 0 none
        = some (max 0 (100 + 0 * 100 * (fun _ : Nat => (0 : ℚ)) 0))) :=
  C6_trig_synthesis 0 (fun _ => 0) (fun _ : Nat => (0 : ℚ)) (fun _ => ⟨0, 0, 0, 0, 0⟩) 1 0 0
    (by decide)

end DemandForecast
